import Mathlib

/-!
Verification of the svarogIO asynchronous runtime core against its
natural-language specification.

The development shallowly embeds the relevant C++ components as pure Lean
functions over explicit state records:

* `work_queue_impl`  — source/svarog/execution/work_queue.cpp
* `io_context`       — source/svarog/io/io_context.cpp
* `executor_work_guard` — source/svarog/execution/work_guard.cpp
* `strand`           — include/svarog/execution/strand.hpp
* `epoll_reactor`    — source/svarog/io/detail/epoll_reactor.cpp
* `timer_queue`      — source/svarog/io/detail/timer_queue.cpp

Handlers are opaque in the C++ code (move-only callables); they are
represented by natural-number tags.  Clock readings and epoll wait results
are inputs of the environment and are threaded explicitly.
-/

namespace SvarogIO

/-! ## Work queue (work_queue.cpp, class work_queue_impl)

The C++ implementation guards a `std::deque<work_item>` and an atomic
stopped flag with a single mutex.  Under the lock every operation is
sequential, so the embedding is a pure state-passing function on the record
below.  The element type is a parameter (handlers are opaque). -/

/-- Error codes of work_queue operations (enum class queue_error). -/
inductive queue_error where
  | empty
  | stopped
deriving Repr, DecidableEq

structure work_queue_impl (α : Type) where
  m_stopped : Bool
  m_queue : List α
deriving Repr, DecidableEq

namespace work_queue_impl

/-- `bool push(work_item&&)`: fails when stopped, otherwise appends at the
back and wakes one waiter (waking is invisible in the sequential model). -/
def push (s : work_queue_impl α) (item : α) : Bool × work_queue_impl α :=
  if s.m_stopped then (false, s)
  else (true, { s with m_queue := s.m_queue ++ [item] })

/-- `expected<work_item, queue_error> try_pop()`: when the deque is empty
the error is `stopped` or `empty` according to the flag; otherwise the
front element is moved out. -/
def try_pop (s : work_queue_impl α) : Except queue_error α × work_queue_impl α :=
  match s.m_queue with
  | [] => (.error (if s.m_stopped then .stopped else .empty), s)
  | x :: xs => (.ok x, { s with m_queue := xs })

/-- `void stop()`: sets the flag (and broadcasts to waiters). -/
def stop (s : work_queue_impl α) : work_queue_impl α :=
  { s with m_stopped := true }

/-- `void clear()`: clears the deque.  Note: the stopped flag is NOT
touched. -/
def clear (s : work_queue_impl α) : work_queue_impl α :=
  { s with m_queue := [] }

/-- `size_t size()`. -/
def size (s : work_queue_impl α) : Nat :=
  s.m_queue.length

/-- `bool empty()`. -/
def empty (s : work_queue_impl α) : Bool :=
  s.m_queue.isEmpty

/-- `bool stopped()`. -/
def stopped (s : work_queue_impl α) : Bool :=
  s.m_stopped

end work_queue_impl

/-! A sequential trace of push / try_pop operations, used to state the FIFO
property (claim C6).  Every operation happens under the queue's single
mutex, so any concurrent execution is equivalent to some sequential
interleaving, which is what the list of operations describes. -/

inductive queue_op (α : Type) where
  | push (a : α)
  | try_pop
deriving Repr

/-- Run a sequence of operations on a work queue, collecting the values
returned by the successful try_pop calls, in order. -/
def run_queue_ops : work_queue_impl α → List (queue_op α) → work_queue_impl α × List α
  | s, [] => (s, [])
  | s, .push a :: ops =>
      let r := work_queue_impl.push s a
      run_queue_ops r.2 ops
  | s, .try_pop :: ops =>
      match work_queue_impl.try_pop s with
      | (.ok a, s') =>
          let r := run_queue_ops s' ops
          (r.1, a :: r.2)
      | (.error _, s') => run_queue_ops s' ops

/-- The items submitted by the push operations of a trace, in order. -/
def pushed_items : List (queue_op α) → List α
  | [] => []
  | .push a :: ops => a :: pushed_items ops
  | .try_pop :: ops => pushed_items ops

/-- Invariant behind the FIFO property: on a non-stopped queue the popped
values followed by the residual queue contents equal the initial contents
followed by all pushed items, and the queue stays non-stopped. -/
theorem run_queue_ops_invariant (ops : List (queue_op α)) :
    ∀ s : work_queue_impl α, s.m_stopped = false →
      (run_queue_ops s ops).1.m_stopped = false ∧
      (run_queue_ops s ops).2 ++ (run_queue_ops s ops).1.m_queue
        = s.m_queue ++ pushed_items ops := by
  induction ops with
  | nil =>
      intro s hs
      simp [run_queue_ops, pushed_items, hs]
  | cons op ops ih =>
      intro s hs
      cases op with
      | push a =>
          have hstep : work_queue_impl.push s a
              = (true, { s with m_queue := s.m_queue ++ [a] }) := by
            simp [work_queue_impl.push, hs]
          have ih' := ih { s with m_queue := s.m_queue ++ [a] } (by simpa using hs)
          simp only [run_queue_ops, hstep, pushed_items]
          exact ⟨ih'.1, by simpa [List.append_assoc] using ih'.2⟩
      | try_pop =>
          cases hq : s.m_queue with
          | nil =>
              have hstep : work_queue_impl.try_pop s
                  = (.error (if s.m_stopped then .stopped else .empty), s) := by
                simp [work_queue_impl.try_pop, hq]
              have ih' := ih s hs
              simp only [run_queue_ops, hstep, pushed_items]
              exact ⟨ih'.1, by simpa [hq] using ih'.2⟩
          | cons x xs =>
              have hstep : work_queue_impl.try_pop s
                  = (.ok x, { s with m_queue := xs }) := by
                simp [work_queue_impl.try_pop, hq]
              have ih' := ih { s with m_queue := xs } (by simpa using hs)
              simp only [run_queue_ops, hstep, pushed_items]
              refine ⟨ih'.1, ?_⟩
              simpa [hq] using congrArg (x :: ·) ih'.2

/-- Claim C6: on a work queue that has not been stopped, the sequence of
handlers returned by the successful try_pop calls of any operation trace is
a prefix of the sequence of pushed handlers (witnessed by the residual
queue contents), and each successful try_pop returns the oldest handler
still in the queue (the front of the deque). -/
theorem work_queue_fifo_pops_are_push_order (ops : List (queue_op Nat))
    (st : Bool) (x : Nat) (xs : List Nat) :
    (work_queue_impl.try_pop ⟨st, x :: xs⟩).1 = .ok x ∧
    ∃ t, (run_queue_ops (⟨false, []⟩ : work_queue_impl Nat) ops).2 ++ t
          = pushed_items ops := by
  constructor
  · simp [work_queue_impl.try_pop]
  · refine ⟨(run_queue_ops (⟨false, []⟩ : work_queue_impl Nat) ops).1.m_queue, ?_⟩
    simpa using (run_queue_ops_invariant ops ⟨false, []⟩ rfl).2

/-- Claim C10: try_pop drains a stopped queue in FIFO order: on a stopped
but non-empty queue it still returns the front (oldest) handler; the
`stopped` error is produced only when the queue is both stopped and empty,
and an empty non-stopped queue yields the `empty` error. -/
theorem try_pop_after_stop_drains_fifo (x : Nat) (xs : List Nat) :
    work_queue_impl.try_pop (⟨true, x :: xs⟩ : work_queue_impl Nat)
        = (.ok x, ⟨true, xs⟩) ∧
    work_queue_impl.try_pop (⟨true, []⟩ : work_queue_impl Nat)
        = (.error .stopped, ⟨true, []⟩) ∧
    work_queue_impl.try_pop (⟨false, []⟩ : work_queue_impl Nat)
        = (.error .empty, ⟨false, []⟩) := by
  refine ⟨?_, ?_, ?_⟩ <;> simp [work_queue_impl.try_pop]

/-! ## Epoll reactor (epoll_reactor.cpp)

The reactor keeps a `std::unordered_map<fd, {handler, operations}>` under a
mutex plus an atomic stopped flag.  Completion handlers are opaque tags.
The outcome of each `epoll_wait` call is an input of the environment,
modelled as a stream indexed by the number of `epoll_wait` calls made so
far; `do_run_one` consumes exactly the indices corresponding to the
`epoll_wait` calls it performs. -/

structure reactor_entry where
  handler : Nat
  operations : Nat
deriving Repr, DecidableEq

structure epoll_reactor where
  m_stopped : Bool
  m_handlers : List (Nat × reactor_entry)
deriving Repr, DecidableEq

/-- One event reported by epoll_wait: the descriptor and whether the event
mask carries the error/hangup indication. -/
structure epoll_ev where
  fd : Nat
  err : Bool
deriving Repr, DecidableEq

/-- Outcome of one `epoll_wait` call: a batch of ready events, failure with
errno EINTR, or failure with another errno. -/
inductive wait_outcome where
  | ready (evs : List epoll_ev)
  | intr
  | fail (errno : Nat)
deriving Repr

/-- The event-processing loop of `do_run_one` (lines 86-112): for each
reported event, look the descriptor up, remove the entry (one-shot
semantics) and invoke the handler with the error code (the per-socket error
retrieved by getsockopt when the mask carries the error indication,
success 0 otherwise) and zero transferred bytes.  The result collects the
final map, the processed count, and the deliveries (handler tag, error
code) in order. -/
def deliver_events (sockErr : Nat → Nat) :
    epoll_reactor → List epoll_ev → epoll_reactor × Nat × List (Nat × Nat)
  | s, [] => (s, 0, [])
  | s, ev :: rest =>
      match s.m_handlers.lookup ev.fd with
      | some entry =>
          let s' : epoll_reactor :=
            { s with m_handlers := s.m_handlers.filter (fun p => p.1 != ev.fd) }
          let ec := if ev.err then sockErr ev.fd else 0
          let r := deliver_events sockErr s' rest
          (r.1, r.2.1 + 1, (entry.handler, ec) :: r.2.2)
      | none => deliver_events sockErr s rest

/-- `std::size_t do_run_one(std::chrono::milliseconds)` (lines 72-113).
`waits k` is the outcome of the k-th `epoll_wait` call of the whole run;
the returned index tells how many wait outcomes were consumed.  A thrown
`std::system_error` is the `.error errno` branch.  When stopped, the
function returns 0 without waiting. -/
def do_run_one (s : epoll_reactor) (sockErr : Nat → Nat)
    (waits : Nat → wait_outcome) (k : Nat) :
    Except Nat (epoll_reactor × Nat × List (Nat × Nat) × Nat) :=
  if s.m_stopped then .ok (s, 0, [], k)
  else
    match waits k with
    | .intr => .ok (s, 0, [], k + 1)
    | .fail e => .error e
    | .ready evs =>
        let r := deliver_events sockErr s evs
        .ok (r.1, r.2.1, r.2.2, k + 1)

/-- Claim C9 (as stated, refuted): on EINTR `do_run_one` does NOT retry the
wait within the same call.  Concretely: descriptor 3 is registered, the
first wait outcome is EINTR and the second would report descriptor 3
ready.  The call consumes exactly one wait outcome and returns 0 with no
delivery, leaving the ready event for a subsequent call — which then
delivers it (count 1). -/
theorem do_run_one_eintr_no_internal_retry :
    (do_run_one ⟨false, [(3, ⟨7, 1⟩)]⟩ (fun _ => 0)
        (fun k => if k = 0 then .intr else .ready [⟨3, false⟩]) 0
      = .ok (⟨false, [(3, ⟨7, 1⟩)]⟩, 0, [], 1)) ∧
    (do_run_one ⟨false, [(3, ⟨7, 1⟩)]⟩ (fun _ => 0)
        (fun k => if k = 0 then .intr else .ready [⟨3, false⟩]) 1
      = .ok (⟨false, []⟩, 1, [(7, 0)], 2)) := by
  constructor <;> rfl

/-- Claim C9 (amended): when `epoll_wait` fails with EINTR, `do_run_one`
returns 0 immediately — no exception is thrown, no completion handler is
invoked, the registration map is unchanged, and exactly one wait was
consumed.  The EINTR condition therefore never reaches user code; the
retry happens at the caller's next `run_one` invocation, not within the
same call. -/
theorem do_run_one_eintr_returns_zero (s : epoll_reactor) (sockErr : Nat → Nat)
    (waits : Nat → wait_outcome) (k : Nat)
    (hs : s.m_stopped = false) (hw : waits k = .intr) :
    do_run_one s sockErr waits k = .ok (s, 0, [], k + 1) := by
  simp [do_run_one, hs, hw]

/-- Concrete instance of the amended C9 statement. -/
theorem do_run_one_eintr_returns_zero_check :
    do_run_one (⟨false, [(5, ⟨9, 1⟩)]⟩ : epoll_reactor) (fun _ => 0)
        (fun _ => .intr) 0
      = .ok (⟨false, [(5, ⟨9, 1⟩)]⟩, 0, [], 1) :=
  do_run_one_eintr_returns_zero ⟨false, [(5, ⟨9, 1⟩)]⟩ (fun _ => 0)
    (fun _ => .intr) 0 rfl rfl

/-! ## io_context (io_context.cpp)

State of the loop as used by the .cpp: the atomic stopped flag, the
contained work queue `m_handlers`, the atomic work count and the reactor.
Handlers are opaque tags. -/

structure io_context where
  m_stopped : Bool
  m_handlers : work_queue_impl Nat
  m_work_count : Int
  m_reactor : epoll_reactor
deriving Repr, DecidableEq

namespace io_context

/-- `void stop()` (lines 195-199): set the flag and stop the internal work
queue. -/
def stop (ctx : io_context) : io_context :=
  { ctx with m_stopped := true, m_handlers := ctx.m_handlers.stop }

/-- `bool stopped()` (lines 201-203). -/
def stopped (ctx : io_context) : Bool :=
  ctx.m_stopped

/-- `void restart()` (lines 205-208): clear the work queue's deque and
reset the io_context's stopped flag.  Note: `work_queue::clear` does not
touch the work queue's own stopped flag. -/
def restart (ctx : io_context) : io_context :=
  { ctx with m_handlers := ctx.m_handlers.clear, m_stopped := false }

/-- `bool has_pending_work()` (lines 60-86): the implemented checks are
only the two first ones of the comment (work queue non-empty, work count
positive); the reactor and timer-queue checks are absent (TODO in the
source). -/
def has_pending_work (ctx : io_context) : Bool :=
  if !(work_queue_impl.empty ctx.m_handlers) then true
  else if 0 < ctx.m_work_count then true
  else false

/-- `executor_type::execute` (lines 214-218): push onto the internal work
queue, discarding the result (a failed push when stopped drops the
handler). -/
def executor_execute (ctx : io_context) (f : Nat) : io_context :=
  { ctx with m_handlers := (ctx.m_handlers.push f).2 }

end io_context

/-- The loop of `io_context::run` (lines 88-118), fuel-bounded.  The check
at the top of each iteration is exactly the source's: return when stopped,
or break when `has_pending_work()` is false.  The body of an iteration
(reactor poll plus handler drain, lines 100-114) is abstracted as an
arbitrary state transformer, because the claim under consideration (C3)
concerns only the exit condition; the theorem below holds for every body.
`none` means the fuel ran out with run still looping. -/
def run_go (body : io_context → io_context) : Nat → io_context → Option io_context
  | 0, _ => none
  | fuel + 1, ctx =>
      if ctx.m_stopped then some ctx
      else if !ctx.has_pending_work then some ctx
      else run_go body fuel (body ctx)

/-- Claim C3 (refuted; code bug): `run()` returns even though the loop is
not stopped and the reactor still has a registered descriptor, because
`has_pending_work` never consults the reactor (nor a timer queue).  At the
concrete context below — not stopped, empty queue, zero work count, one
registered descriptor — run returns immediately, for every loop body and
every positive fuel. -/
theorem run_exits_despite_registered_descriptor
    (body : io_context → io_context) (fuel : Nat) :
    io_context.stopped ⟨false, ⟨false, []⟩, 0, ⟨false, [(3, ⟨7, 1⟩)]⟩⟩ = false ∧
    (⟨false, ⟨false, []⟩, 0, ⟨false, [(3, ⟨7, 1⟩)]⟩⟩ : io_context).m_reactor.m_handlers.length = 1 ∧
    io_context.has_pending_work ⟨false, ⟨false, []⟩, 0, ⟨false, [(3, ⟨7, 1⟩)]⟩⟩ = false ∧
    run_go body (fuel + 1) ⟨false, ⟨false, []⟩, 0, ⟨false, [(3, ⟨7, 1⟩)]⟩⟩
      = some ⟨false, ⟨false, []⟩, 0, ⟨false, [(3, ⟨7, 1⟩)]⟩⟩ := by
  refine ⟨rfl, rfl, rfl, ?_⟩
  simp [run_go, io_context.has_pending_work, work_queue_impl.empty]

/-- Claim C1 (refuted; code bug): after `stop()` followed by `restart()`,
`stopped()` is false and the pending-handler queue is empty, but a handler
submitted afterwards is NOT accepted: `push` returns false (and the
executor's `execute` silently drops the handler), because
`work_queue::clear` — the only thing `restart` does to the queue — never
resets the queue's own stopped flag set by `stop()`. -/
theorem io_context_restart_rejects_new_work (h : Nat) :
    io_context.stopped
        (io_context.restart (io_context.stop ⟨false, ⟨false, []⟩, 0, ⟨false, []⟩⟩))
      = false ∧
    (io_context.restart
        (io_context.stop ⟨false, ⟨false, []⟩, 0, ⟨false, []⟩⟩)).m_handlers.m_queue = [] ∧
    (io_context.restart
        (io_context.stop ⟨false, ⟨false, []⟩, 0, ⟨false, []⟩⟩)).m_handlers.m_stopped = true ∧
    (work_queue_impl.push
        (io_context.restart
          (io_context.stop ⟨false, ⟨false, []⟩, 0, ⟨false, []⟩⟩)).m_handlers h).1 = false ∧
    (io_context.executor_execute
        (io_context.restart (io_context.stop ⟨false, ⟨false, []⟩, 0, ⟨false, []⟩⟩))
        h).m_handlers.m_queue = [] := by
  refine ⟨rfl, rfl, rfl, ?_, ?_⟩ <;>
    simp [io_context.restart, io_context.stop, io_context.executor_execute,
      work_queue_impl.push, work_queue_impl.clear, work_queue_impl.stop]

/-! ## Work guard (work_guard.cpp)

`executor_work_guard` holds `m_context`, a possibly-null pointer to the
loop whose `m_work_count` it increments.  The embedding tracks the count
of that single loop (an integer, since only the guard protocol is at
stake) and whether the guard still owns a contribution (`m_context` not
null). -/

structure executor_work_guard where
  owns_context : Bool
deriving Repr, DecidableEq

/-- Constructor (lines 12-14): `fetch_add(1)` on the loop's count. -/
def wg_construct (c : Int) : Int × executor_work_guard :=
  (c + 1, ⟨true⟩)

/-- `void reset()` (lines 32-38): when the context pointer is non-null,
`fetch_sub(1)`, notify the queue, and null the pointer; otherwise do
nothing. -/
def wg_reset (c : Int) (g : executor_work_guard) : Int × executor_work_guard :=
  if g.owns_context then (c - 1, ⟨false⟩) else (c, g)

/-- Destructor (lines 16-18): calls reset(). -/
def wg_destroy (c : Int) (g : executor_work_guard) : Int :=
  (wg_reset c g).1

/-- Move constructor (lines 20-22): `std::exchange` of the pointer; the
count is untouched. -/
def wg_move_ctor (g : executor_work_guard) :
    executor_work_guard × executor_work_guard :=
  (⟨g.owns_context⟩, ⟨false⟩)

/-- Move assignment (lines 24-30): reset the target first, then exchange
the source's pointer into the target. -/
def wg_move_assign (c : Int) (target source : executor_work_guard) :
    Int × executor_work_guard × executor_work_guard :=
  let r := wg_reset c target
  (r.1, ⟨source.owns_context⟩, ⟨false⟩)

/-- Claim C8: the work-guard counting protocol.  Construction increments
the loop's work count by exactly one and yields an owning guard; reset of
an owning guard decrements by one and makes it inert; reset is idempotent
(a second reset, and destruction after reset, change nothing); destruction
behaves as reset; move construction and move assignment transfer
ownership — the count is unchanged by the transfer itself, the source is
left inert, and after moving from an owning guard, resetting (or
destroying) both guards involved decrements the count exactly once in
total. -/
theorem work_guard_count_protocol (c : Int) (g tgt src : executor_work_guard) :
    (wg_construct c = (c + 1, ⟨true⟩)) ∧
    (wg_reset c ⟨true⟩ = (c - 1, ⟨false⟩)) ∧
    (wg_reset c ⟨false⟩ = (c, ⟨false⟩)) ∧
    (wg_reset (wg_reset c g).1 (wg_reset c g).2 = wg_reset c g) ∧
    (wg_destroy (wg_reset c g).1 (wg_reset c g).2 = (wg_reset c g).1) ∧
    (wg_destroy c g = (wg_reset c g).1) ∧
    (wg_move_ctor g = (⟨g.owns_context⟩, ⟨false⟩)) ∧
    (wg_destroy (wg_destroy c (wg_move_ctor ⟨true⟩).1) (wg_move_ctor ⟨true⟩).2
        = c - 1) ∧
    (wg_move_assign c tgt src
        = ((wg_reset c tgt).1, ⟨src.owns_context⟩, ⟨false⟩)) ∧
    (wg_destroy (wg_destroy (wg_move_assign c ⟨false⟩ ⟨true⟩).1
          (wg_move_assign c ⟨false⟩ ⟨true⟩).2.1)
          (wg_move_assign c ⟨false⟩ ⟨true⟩).2.2
        = c - 1) := by
  cases g with
  | mk og =>
      cases og <;>
        simp [wg_construct, wg_reset, wg_destroy, wg_move_ctor, wg_move_assign]

/-! ## Strand (strand.hpp)

Shared state of a strand: its private work queue, the atomic draining flag
`m_executing` and the atomic `m_running_thread_id`.  Thread ids are
natural-number tags; the thread-local recursion depth `s_execution_depth`
of the calling thread is an explicit argument, as is the calling thread's
own id. -/

structure strand_state where
  m_queue : work_queue_impl Nat
  m_executing : Bool
  m_running_thread_id : Nat
deriving Repr, DecidableEq

/-- `max_recursion_depth` (strand.hpp line 48). -/
def max_recursion_depth : Nat := 100

/-- `bool running_in_this_thread()` (lines 122-125). -/
def running_in_this_thread (this_thread : Nat) (st : strand_state) : Bool :=
  this_thread == st.m_running_thread_id

/-- `void post(handler)` (lines 77-95): push the wrapped handler onto the
strand's queue (result discarded), then CAS `m_executing` from false to
true; on success the drain trampoline is scheduled on the underlying
executor (the returned flag). -/
def strand_post (st : strand_state) (h : Nat) : strand_state × Bool :=
  let q' := (st.m_queue.push h).2
  if st.m_executing then ({ st with m_queue := q' }, false)
  else ({ st with m_queue := q', m_executing := true }, true)

/-- Result of the synchronous branch of dispatch: the depth while the
handler ran, the depth after dispatch returned, and whether an exception
thrown by the handler was propagated to the caller. -/
structure sync_run where
  depth_during : Nat
  depth_after : Nat
  exception_propagated : Bool
deriving Repr, DecidableEq

inductive dispatch_result where
  | sync (r : sync_run)
  | posted
deriving Repr, DecidableEq

/-- `void dispatch(handler)` (lines 97-120).  `throws` tells whether the
handler throws when invoked.  The result carries how the handler was run,
the strand state afterwards, and whether a drain trampoline was scheduled
on the underlying executor. -/
def strand_dispatch (this_thread depth : Nat) (st : strand_state)
    (h : Nat) (throws : Bool) : dispatch_result × strand_state × Bool :=
  if running_in_this_thread this_thread st then
    if depth ≥ max_recursion_depth then
      let r := strand_post st h
      (.posted, r.1, r.2)
    else
      (.sync ⟨depth + 1, depth + 1 - 1, throws⟩, st, false)
  else
    let r := strand_post st h
    (.posted, r.1, r.2)

/-- Claim C7: dispatch runs the handler synchronously on the calling stack
if and only if the calling thread's id equals the strand's running-thread
identifier and the thread-local recursion depth is below the cap of 100.
In the synchronous branch the depth during the handler is the incremented
depth, the depth after return is restored to the original value, a thrown
exception is propagated, the strand state is untouched and nothing is
enqueued.  In every other case dispatch produces exactly the state and
scheduling effect of post (the handler is enqueued, not run). -/
theorem strand_dispatch_sync_iff_running_thread_below_cap
    (this_thread depth : Nat) (st : strand_state) (h : Nat) (throws : Bool) :
    ((running_in_this_thread this_thread st = true ∧ depth < max_recursion_depth) →
      strand_dispatch this_thread depth st h throws
        = (.sync ⟨depth + 1, depth, throws⟩, st, false)) ∧
    (¬(running_in_this_thread this_thread st = true ∧ depth < max_recursion_depth) →
      strand_dispatch this_thread depth st h throws
        = (.posted, (strand_post st h).1, (strand_post st h).2)) ∧
    (∀ r, strand_dispatch this_thread depth st h throws ≠ (.sync r, st, false) ∨
      (running_in_this_thread this_thread st = true ∧ depth < max_recursion_depth)) := by
  refine ⟨?_, ?_, ?_⟩
  · rintro ⟨hrun, hdepth⟩
    simp [strand_dispatch, hrun, Nat.not_le.mpr hdepth]
  · intro hnot
    by_cases hrun : running_in_this_thread this_thread st = true
    · have hdepth : max_recursion_depth ≤ depth := by
        rcases Nat.lt_or_ge depth max_recursion_depth with hlt | hge
        · exact absurd ⟨hrun, hlt⟩ hnot
        · exact hge
      simp [strand_dispatch, hrun, hdepth]
    · simp only [Bool.not_eq_true] at hrun
      simp [strand_dispatch, hrun]
  · intro r
    by_cases hrun : running_in_this_thread this_thread st = true
    · by_cases hdepth : depth < max_recursion_depth
      · exact Or.inr ⟨hrun, hdepth⟩
      · refine Or.inl ?_
        simp [strand_dispatch, hrun, Nat.not_lt.mp hdepth]
    · refine Or.inl ?_
      simp only [Bool.not_eq_true] at hrun
      simp [strand_dispatch, hrun]

/-- Concrete instance of the C7 characterisation: thread 5 is the running
thread and the depth is 0, so dispatch executes synchronously, leaves the
strand untouched, and restores the depth. -/
theorem strand_dispatch_sync_check :
    strand_dispatch 5 0 ⟨⟨false, []⟩, true, 5⟩ 1 false
      = (.sync ⟨1, 0, false⟩, ⟨⟨false, []⟩, true, 5⟩, false) :=
  (strand_dispatch_sync_iff_running_thread_below_cap 5 0 ⟨⟨false, []⟩, true, 5⟩ 1 false).1
    ⟨rfl, by decide⟩

/-! ## Timer queue (timer_queue.cpp / timer_queue.hpp)

`timer_queue` keeps `std::set<timer_entry, std::greater<>> m_timers` and
`std::unordered_map<timer_id, iterator> m_id_to_iterator` under a
reader/writer lock, plus the atomic id counter `m_next_id` starting at 1.
Deadlines (steady_clock time points) are integers; handlers are opaque
tags.  `std::greater<>` orders the set through `timer_entry::operator>`,
which compares ONLY the deadline, so: the set is kept in strictly
descending deadline order, `begin()` is the entry with the LARGEST
deadline, and two entries with equal deadlines are equivalent — an
`emplace` of a second entry with an already-present deadline is rejected.
The embedding represents the set as the list of entries in the set's
iteration order (descending deadline) and the id-to-iterator map as the
list of indexed ids. -/

structure timer_entry where
  id : Nat
  deadline : Int
  handler : Nat
deriving Repr, DecidableEq

/-- `timer_entry::operator>` (timer_queue.cpp lines 6-8): deadline
comparison only; the id does not participate. -/
def timer_entry_gt (a b : timer_entry) : Bool :=
  a.deadline > b.deadline

/-- `std::set::emplace` under the `std::greater<>` comparator: insert
keeping the comparator's order; when the new entry is equivalent to an
existing one (neither compares greater — here: equal deadlines) the
insertion FAILS and the element is discarded. -/
def set_insert (e : timer_entry) : List timer_entry → List timer_entry × Bool
  | [] => ([e], true)
  | x :: xs =>
      if timer_entry_gt e x then (e :: x :: xs, true)
      else if timer_entry_gt x e then
        let r := set_insert e xs
        (x :: r.1, r.2)
      else (x :: xs, false)

structure timer_queue where
  m_next_id : Nat
  m_timers : List timer_entry
  m_id_to_iterator : List Nat
deriving Repr, DecidableEq

/-- `generate_id()` (timer_queue.hpp lines 47-49): `fetch_add(1)` on the
64-bit counter, returning the previous value. -/
def generate_id (q : timer_queue) : Nat × timer_queue :=
  (q.m_next_id, { q with m_next_id := (q.m_next_id + 1) % 2 ^ 64 })

/-- `timer_id add_timer(time_point, timer_handler)` (lines 10-20): allocate
the id, emplace the entry, and index the id only when the emplace actually
inserted.  The id is returned regardless. -/
def add_timer (q : timer_queue) (deadline : Int) (h : Nat) : timer_queue × Nat :=
  let r := generate_id q
  let ins := set_insert ⟨r.1, deadline, h⟩ r.2.m_timers
  let idx := if ins.2 then r.1 :: r.2.m_id_to_iterator else r.2.m_id_to_iterator
  ({ r.2 with m_timers := ins.1, m_id_to_iterator := idx }, r.1)

/-- `bool cancel_timer(timer_id)` (lines 26-37): look the id up in the
index; when absent return false, otherwise erase the indexed entry from
the set and the id from the index. -/
def cancel_timer (q : timer_queue) (id : Nat) : timer_queue × Bool :=
  if q.m_id_to_iterator.contains id then
    ({ q with
        m_timers := q.m_timers.filter (fun e => e.id != id),
        m_id_to_iterator := q.m_id_to_iterator.filter (fun i => i != id) }, true)
  else (q, false)

/-- `std::optional<time_point> get_next_expiry()` (lines 39-45): the
deadline at `begin()` — which, by the descending order, is the LARGEST
deadline in the set. -/
def get_next_expiry (q : timer_queue) : Option Int :=
  match q.m_timers with
  | [] => none
  | it :: _ => some it.deadline

/-- `std::optional<timer_handler> pop_expired()` (lines 59-72): inspect
`begin()`; when its deadline has not passed `now` return nothing,
otherwise move the handler out and erase the entry from both structures.
The clock reading made inside the function is the explicit `now`
argument. -/
def pop_expired (q : timer_queue) (now : Int) : timer_queue × Option Nat :=
  match q.m_timers with
  | [] => (q, none)
  | it :: rest =>
      if it.deadline > now then (q, none)
      else ({ q with
                m_timers := rest,
                m_id_to_iterator := q.m_id_to_iterator.filter (fun i => i != it.id) },
            some it.handler)

/-- `bool has_expired(time_point)` (lines 74-80): whether `begin()`'s
deadline (the largest one) is ≤ the given time. -/
def has_expired (q : timer_queue) (t_now : Int) : Bool :=
  match q.m_timers with
  | [] => false
  | it :: _ => it.deadline ≤ t_now

/-- Result of `process_expired`: the final queue, the returned count, the
invocations actually performed — pairs of (handler tag, error-code value),
the error code being 0 because the source always invokes with
`std::error_code{}` — and the index of the next unread clock value. -/
structure process_result where
  queue : timer_queue
  count : Nat
  invoked : List (Nat × Nat)
  next_clock : Nat
deriving Repr, DecidableEq

/-- The loop of `size_t process_expired(time_point)` (lines 82-92).  The
clock is a stream of the successive `clock_type::now()` readings; each
non-trivial `pop_expired` call reads one (index k), and the subsequent
overdue check `clock_type::now() > t_now` reads another (index k+1).  When
the set is empty `pop_expired` returns before reading the clock, hence the
explicit emptiness test.  The fuel is the initial set size: every
iteration that recurses has removed one entry, so the fuel never runs out
on a reachable state. -/
def process_expired_go (t_now : Int) (clock : Nat → Int) :
    Nat → timer_queue → Nat → process_result
  | 0, q, k => ⟨q, 0, [], k⟩
  | fuel + 1, q, k =>
      if q.m_timers.isEmpty then ⟨q, 0, [], k⟩
      else
        match pop_expired q (clock k) with
        | (q', none) => ⟨q', 0, [], k + 1⟩
        | (q', some h) =>
            if clock (k + 1) > t_now then ⟨q', 0, [], k + 2⟩
            else
              let r := process_expired_go t_now clock fuel q' (k + 2)
              ⟨r.queue, r.count + 1, (h, 0) :: r.invoked, r.next_clock⟩

/-- `size_t process_expired(time_point t_now)` with the clock stream made
explicit. -/
def process_expired (q : timer_queue) (t_now : Int) (clock : Nat → Int) :
    process_result :=
  process_expired_go t_now clock q.m_timers.length q 0

/-- Claim C2 (refuted; code bug): `pop_expired` inspects `begin()` of the
`std::greater<>`-ordered set, which is the entry with the LARGEST
deadline, not the smallest.  Concretely, after adding timers with
deadlines 1 (id 1, handler 10) and 5 (id 2, handler 20): the set iterates
in descending order; at now = 3 the id-1 entry is overdue yet pop_expired
returns nothing and leaves the queue unchanged (and has_expired reports
false); at now = 10 pop_expired returns handler 20 — the latest deadline,
not the smallest — and get_next_expiry reports 5, the largest deadline. -/
theorem pop_expired_returns_latest_not_earliest :
    (add_timer (add_timer ⟨1, [], []⟩ 1 10).1 5 20).1.m_timers
        = [⟨2, 5, 20⟩, ⟨1, 1, 10⟩] ∧
    (⟨1, 1, 10⟩ : timer_entry) ∈ (add_timer (add_timer ⟨1, [], []⟩ 1 10).1 5 20).1.m_timers ∧
    ((⟨1, 1, 10⟩ : timer_entry).deadline ≤ 3) ∧
    pop_expired (add_timer (add_timer ⟨1, [], []⟩ 1 10).1 5 20).1 3
        = ((add_timer (add_timer ⟨1, [], []⟩ 1 10).1 5 20).1, none) ∧
    has_expired (add_timer (add_timer ⟨1, [], []⟩ 1 10).1 5 20).1 3 = false ∧
    (pop_expired (add_timer (add_timer ⟨1, [], []⟩ 1 10).1 5 20).1 10).2 = some 20 ∧
    get_next_expiry (add_timer (add_timer ⟨1, [], []⟩ 1 10).1 5 20).1 = some 5 := by
  decide

/-- Claim C4 (refuted; code bug): adding a timer whose deadline already
occurs in the queue silently drops the new entry, because
`timer_entry::operator>` compares deadlines only, so `std::set` treats the
two entries as equivalent and the emplace fails.  Concretely: after
add_timer(10, h1) and add_timer(10, h2), the second call still returns the
fresh nonzero id 2 (> 1), but the set's size stays 1, the id→iterator
index does not contain id 2, and a later cancel of id 2 finds nothing. -/
theorem add_timer_duplicate_deadline_dropped :
    (add_timer ⟨1, [], []⟩ 10 1).2 = 1 ∧
    (add_timer (add_timer ⟨1, [], []⟩ 10 1).1 10 2).2 = 2 ∧
    (add_timer (add_timer ⟨1, [], []⟩ 10 1).1 10 2).1.m_timers = [⟨1, 10, 1⟩] ∧
    (add_timer (add_timer ⟨1, [], []⟩ 10 1).1 10 2).1.m_timers.length = 1 ∧
    (add_timer (add_timer ⟨1, [], []⟩ 10 1).1 10 2).1.m_id_to_iterator = [1] ∧
    (cancel_timer (add_timer (add_timer ⟨1, [], []⟩ 10 1).1 10 2).1 2).2 = false := by
  decide

/-- Claim C5 (as stated, refuted): `process_expired` pops an entry and only
then checks whether the clock has surpassed `t_now`; when the check trips,
the already-popped handler is destroyed without ever being invoked.
Concretely: one timer with deadline 1 and handler 42; t_now = 5; the clock
reads 2 at the pop (1 ≤ 2, so the entry is removed) and 6 at the overdue
check (6 > 5, so the loop breaks).  The entry is gone from the queue, yet
the count is 0 and no handler was invoked. -/
theorem process_expired_removes_without_invoking :
    (add_timer ⟨1, [], []⟩ 1 42).1.m_timers.length = 1 ∧
    (process_expired (add_timer ⟨1, [], []⟩ 1 42).1 5
        (fun k => if k = 0 then 2 else 6)).queue.m_timers = [] ∧
    (process_expired (add_timer ⟨1, [], []⟩ 1 42).1 5
        (fun k => if k = 0 then 2 else 6)).count = 0 ∧
    (process_expired (add_timer ⟨1, [], []⟩ 1 42).1 5
        (fun k => if k = 0 then 2 else 6)).invoked = [] := by
  decide

/-- Loop invariant of `process_expired` over the fuel-bounded body: the
count equals the number of invocations, every invocation carries the
ordinary (success) expiry indication, and the number of entries removed
from the set equals the count or exceeds it by exactly one (the final
popped-but-dropped handler). -/
theorem process_expired_go_spec (t_now : Int) (clock : Nat → Int) :
    ∀ fuel : Nat, ∀ q : timer_queue, ∀ k : Nat, q.m_timers.length ≤ fuel →
      (process_expired_go t_now clock fuel q k).count
          = (process_expired_go t_now clock fuel q k).invoked.length ∧
      (process_expired_go t_now clock fuel q k).invoked.all (fun p => p.2 == 0) = true ∧
      (q.m_timers.length
          = (process_expired_go t_now clock fuel q k).queue.m_timers.length
            + (process_expired_go t_now clock fuel q k).count ∨
       q.m_timers.length
          = (process_expired_go t_now clock fuel q k).queue.m_timers.length
            + (process_expired_go t_now clock fuel q k).count + 1) := by
  intro fuel
  induction fuel with
  | zero =>
      intro q k hlen
      have hnil : q.m_timers = [] := List.length_eq_zero.mp (Nat.le_zero.mp hlen)
      simp [process_expired_go, hnil]
  | succ fuel ih =>
      intro q k hlen
      cases hq : q.m_timers with
      | nil =>
          simp [process_expired_go, hq]
      | cons it rest =>
          by_cases hd : it.deadline > clock k
          · simp [process_expired_go, hq, pop_expired, hd]
          · by_cases hc : clock (k + 1) > t_now
            · simp [process_expired_go, hq, pop_expired, hd, hc]
            · have hrest : rest.length ≤ fuel := by
                have hlc : rest.length + 1 ≤ fuel + 1 := by simpa [hq] using hlen
                omega
              obtain ⟨e1, e2, e3⟩ := ih { q with
                  m_timers := rest,
                  m_id_to_iterator := q.m_id_to_iterator.filter (fun i => i != it.id) }
                (k + 2) (by simpa using hrest)
              simp [process_expired_go, hq, pop_expired, hd, hc]
              simp only [List.length_cons] at e3
              refine ⟨by omega, by simpa using e2, ?_⟩
              rcases e3 with h3 | h3
              · left; omega
              · right; omega

/-- Claim C5 (amended): the count returned by `process_expired(now)` equals
the number of handlers invoked, every invocation carries the ordinary
(success) expiry indication, and the number of entries removed from the
queue equals that count or exceeds it by exactly one: when the loop stops
early because the clock has surpassed `now`, the last popped entry's
handler is destroyed without being invoked. -/
theorem process_expired_invocation_count (q : timer_queue) (t_now : Int)
    (clock : Nat → Int) :
    (process_expired q t_now clock).count
        = (process_expired q t_now clock).invoked.length ∧
    (process_expired q t_now clock).invoked.all (fun p => p.2 == 0) = true ∧
    (q.m_timers.length
        = (process_expired q t_now clock).queue.m_timers.length
          + (process_expired q t_now clock).count ∨
     q.m_timers.length
        = (process_expired q t_now clock).queue.m_timers.length
          + (process_expired q t_now clock).count + 1) :=
  process_expired_go_spec t_now clock q.m_timers.length q 0 (Nat.le_refl _)

end SvarogIO
